import Mathlib

/-!
Verification of the HORNET webapi tips handlers (`plugins/webapi/tips.go`)
and the restapi v1 route registration (`plugins/restapi/v1/plugin.go`).

The handlers are embedded as pure functions over an explicit environment
record: every collaborator the Go code consults (`node.IsSkipped`,
`tangle.IsNodeSyncedWithThreshold`, `tangle.GetCachedTxMetadataOrNil`,
`dag.GetTransactionRootSnapshotIndexes`, `tangle.GetCachedBundleOrNil`,
`tangle.SolidEntryPointsContain`, `tangle.GetSnapshotInfo`,
`urts.TipSelector.SelectNonLazyTips`, the configuration values) appears as a
field of the environment, read exactly where the Go code reads it.
An HTTP reply `c.JSON(status, body)` is embedded as `ApiResult`: `ok body`
for a 200 reply and `fail status message` for an error reply.
`milestone.Index` is `uint32` in Go, so milestone-index subtraction and the
conversion of configuration integers are taken modulo 2^32.
-/

namespace HornetTips

/-- 2^32: `milestone.Index` is a Go `uint32`. -/
def U32 : Nat := 4294967296

/-- The Go conversion `milestone.Index(n)` of a non-negative configuration
integer. -/
def toIndex (n : Nat) : Nat := n % U32

/-- Go `uint32` subtraction `a - b` (wrapping). -/
def indexSub (a b : Nat) : Nat := (a % U32 + (U32 - b % U32)) % U32

/-- A tryte character: '9' or 'A'..'Z'. -/
def isTryteChar (c : Char) : Bool := c == '9' || ('A' ≤ c && c ≤ 'Z')

/-- `guards.IsTrytesOfExactLength` of the iota.go dependency: a string of
exactly `n` tryte characters. -/
def isTrytesOfExactLength (s : String) (n : Nat) : Bool :=
  s.length == n && s.data.all isTryteChar

/-- `guards.IsTransactionHash` of the iota.go dependency: a syntactically
valid transaction hash is exactly 81 trytes. -/
def isTransactionHash (s : String) : Bool := isTrytesOfExactLength s 81

/-- An HTTP reply sent with `c.JSON`: `ok` is a 200 reply carrying a body,
`fail` an error reply carrying its status code and the `ErrorReturn`
message. -/
inductive ApiResult (α : Type) where
  | ok (body : α) : ApiResult α
  | fail (status : Nat) (message : String) : ApiResult α
  deriving DecidableEq, Repr

/-- The transaction metadata fields `getTipInfo` reads (`IsTail`, `IsSolid`,
`IsConflicting`, `IsConfirmed`). -/
structure TxMetadata where
  isTail : Bool
  isSolid : Bool
  isConflicting : Bool
  isConfirmed : Bool
  deriving DecidableEq, Repr

/-- The body of a successful `getTipInfo` reply. -/
structure GetTipInfoReturn where
  confirmed : Bool
  conflicting : Bool
  shouldPromote : Bool
  shouldReattach : Bool
  deriving DecidableEq, Repr

/-- The two approvee hashes `getTipInfo` reads off the tail's bundle
(`GetTrunkHash(true)` and `GetBranchHash(true)`). -/
structure BundleApprovees where
  trunkHash : String
  branchHash : String
  deriving DecidableEq, Repr

/-- The body of a successful `getTransactionsToApprove` reply. -/
structure GetTransactionsToApproveReturn where
  trunkTransaction : String
  branchTransaction : String
  deriving DecidableEq, Repr

/-- Everything `getTipInfo` reads from its collaborators.  Hashes on the
binary side (`hornet.Hash`) are represented as strings; `hashFromHashTrytes`
embeds `hornet.HashFromHashTrytes` and `hashTrytes` embeds `Hash.Trytes()`.
`rootSnapshotIndexes h lsmi` embeds
`dag.GetTransactionRootSnapshotIndexes(meta(h), lsmi)` returning
`(ytrsi, otrsi)`. -/
structure TipInfoEnv where
  urtsSkipped : Bool
  nodeSyncedWithThreshold : Bool
  internalErrorText : String
  hashFromHashTrytes : String → String
  hashTrytes : String → String
  txMeta : String → Option TxMetadata
  lsmi : Nat
  rootSnapshotIndexes : String → Nat → Nat × Nat
  bundle : String → Option BundleApprovees
  solidEntryPointsContain : String → Bool
  entryPointIndex : Nat
  cfgBelowMaxDepth : Nat
  cfgMaxDeltaTxYoungestRootSnapshotIndexToLSMI : Nat
  cfgMaxDeltaTxApproveesOldestRootSnapshotIndexToLSMI : Nat

/-- The OTRSI an approvee contributes in the loop of `getTipInfo`
(tips.go:130-146): a solid-entry-point contributes
`GetSnapshotInfo().EntryPointIndex`; otherwise the approvee's metadata is
looked up (`none` when it is missing) and its OTRSI computed for the current
`lsmi`. -/
def approveeORTSI (env : TipInfoEnv) (h : String) : Option Nat :=
  if env.solidEntryPointsContain h then
    some env.entryPointIndex
  else
    match env.txMeta h with
    | none => none
    | some _ => some (env.rootSnapshotIndexes h env.lsmi).2

/-- The approvee's OTRSI as a number (meaningful when `approveeORTSI` is
`some`). -/
def approveeORTSIVal (env : TipInfoEnv) (h : String) : Nat :=
  (approveeORTSI env h).getD 0

/-- The approvee set of tips.go:125-128: a Go map keyed by trunk and branch
hash, so the two collapse to one element when equal. -/
def approveeHashes (b : BundleApprovees) : List String :=
  if b.trunkHash = b.branchHash then [b.trunkHash] else [b.trunkHash, b.branchHash]

/-- The loop of tips.go:130-158 over the approvees: a missing approvee is a
400; an approvee whose `lsmi - OTRSI` exceeds
`CfgTipSelMaxDeltaTxApproveesOldestRootSnapshotIndexToLSMI` makes the tip
semi-lazy (promote); when no approvee does, the tip is non-lazy
(tips.go:160-166). -/
def checkApprovees (env : TipInfoEnv) : List String → ApiResult GetTipInfoReturn
  | [] => ApiResult.ok ⟨false, false, false, false⟩
  | h :: rest =>
    match approveeORTSI env h with
    | none => ApiResult.fail 400 ("approvee transaction not found: " ++ env.hashTrytes h)
    | some o =>
      if toIndex env.cfgMaxDeltaTxApproveesOldestRootSnapshotIndexToLSMI <
          indexSub env.lsmi o then
        ApiResult.ok ⟨false, false, true, false⟩
      else
        checkApprovees env rest

/-- `getTipInfo` of tips.go:26-167.  `decodeErr` is the outcome of
`mapstructure.Decode` (`none` on success), `tailTransaction` the decoded
query's tail hash. -/
def getTipInfo (env : TipInfoEnv) (decodeErr : Option String)
    (tailTransaction : String) : ApiResult GetTipInfoReturn :=
  if env.urtsSkipped then
    ApiResult.fail 503 "tipselection plugin disabled in this node"
  else if !env.nodeSyncedWithThreshold then
    ApiResult.fail 400 "node is not synced"
  else
    match decodeErr with
    | some msg => ApiResult.fail 500 (env.internalErrorText ++ ": " ++ msg)
    | none =>
      if !isTransactionHash tailTransaction then
        ApiResult.fail 400 "invalid tail hash supplied"
      else
        match env.txMeta (env.hashFromHashTrytes tailTransaction) with
        | none => ApiResult.fail 400 "unknown tail transaction"
        | some meta =>
          if !meta.isTail then
            ApiResult.fail 400 "transaction is not a tail"
          else if !meta.isSolid then
            ApiResult.fail 400 "transaction is not solid"
          else if (meta.isConfirmed && !meta.isConflicting) || meta.isConflicting then
            ApiResult.ok
              ⟨meta.isConfirmed && !meta.isConflicting, meta.isConflicting, false, false⟩
          else if toIndex env.cfgBelowMaxDepth <
              indexSub env.lsmi
                (env.rootSnapshotIndexes (env.hashFromHashTrytes tailTransaction) env.lsmi).2 then
            ApiResult.ok ⟨false, false, false, true⟩
          else if toIndex env.cfgMaxDeltaTxYoungestRootSnapshotIndexToLSMI <
              indexSub env.lsmi
                (env.rootSnapshotIndexes (env.hashFromHashTrytes tailTransaction) env.lsmi).1 then
            ApiResult.ok ⟨false, false, true, false⟩
          else
            match env.bundle (env.hashFromHashTrytes tailTransaction) with
            | none => ApiResult.fail 400 "unknown bundle"
            | some b => checkApprovees env (approveeHashes b)

/-- The errors `urts.TipSelector.SelectNonLazyTips` can return: the two
sentinel errors compared by identity in tips.go:189, and any other
error (`other`, tagged by its message). -/
inductive SelectError where
  | nodeNotSynced
  | noTipsAvailable
  | other (tag : String)
  deriving DecidableEq, Repr

/-- Everything `getTransactionsToApprove` reads from its collaborators.
`selectNonLazyTips` is the outcome of `urts.TipSelector.SelectNonLazyTips()`
(on success at least two tips); `errText` embeds Go's `err.Error()`;
`trytes` embeds `Hash.Trytes()`. -/
structure TipSelEnv where
  urtsSkipped : Bool
  internalErrorText : String
  selectNonLazyTips : Except SelectError (List String)
  errText : SelectError → String
  trytes : String → String

/-- `getTransactionsToApprove` of tips.go:169-210.  `decodeErr` is the
outcome of `mapstructure.Decode` (`none` on success), `reference` the decoded
query's reference hash (empty when not supplied). -/
def getTransactionsToApprove (env : TipSelEnv) (decodeErr : Option String)
    (reference : String) : ApiResult GetTransactionsToApproveReturn :=
  if env.urtsSkipped then
    ApiResult.fail 503 "tipselection plugin disabled in this node"
  else
    match decodeErr with
    | some msg => ApiResult.fail 500 (env.internalErrorText ++ ": " ++ msg)
    | none =>
      match env.selectNonLazyTips with
      | Except.error err =>
        if err = SelectError.nodeNotSynced ∨ err = SelectError.noTipsAvailable then
          ApiResult.fail 503 (env.errText err)
        else
          ApiResult.fail 500 (env.internalErrorText ++ ": " ++ env.errText err)
      | Except.ok tips =>
        if 0 < reference.length then
          if !isTransactionHash reference then
            ApiResult.fail 400 "invalid reference hash supplied"
          else
            ApiResult.ok ⟨env.trytes (tips.getD 0 ""), reference⟩
        else
          ApiResult.ok ⟨env.trytes (tips.getD 0 ""), env.trytes (tips.getD 1 "")⟩

/-- A route of the restapi v1 `configure` in plugin.go. -/
structure Route where
  method : String
  path : String
  deriving DecidableEq, Repr

def ParameterMessageID : String := "messageID"

def ParameterOutputID : String := "outputID"

def ParameterAddress : String := "address"

def ParameterMilestoneIndex : String := "milestoneIndex"

def ParameterPeerID : String := "peerID"

def RouteInfo : String := "/info"

def RouteTips : String := "/tips"

def RouteSpammer : String := "/spammer"

def RouteMessageData : String := "/messages/:" ++ ParameterMessageID

def RouteMessageMetadata : String := "/messages/:" ++ ParameterMessageID ++ "/metadata"

def RouteMessageBytes : String := "/messages/:" ++ ParameterMessageID ++ "/raw"

def RouteMessageChildren : String := "/messages/:" ++ ParameterMessageID ++ "/children"

def RouteMessages : String := "/messages"

def RouteMilestone : String := "/milestones/:" ++ ParameterMilestoneIndex

def RouteOutput : String := "/outputs/:" ++ ParameterOutputID

def RouteAddressBalance : String := "/addresses/:" ++ ParameterAddress

def RouteAddressOutputs : String := "/addresses/:" ++ ParameterAddress ++ "/outputs"

def RoutePeer : String := "/peers/:" ++ ParameterPeerID

def RoutePeers : String := "/peers"

def RouteControlDatabasePrune : String := "/control/database/prune"

def RouteControlSnapshotCreate : String := "/control/snapshots/create"

def RouteDebugSolidifer : String := "/debug/solidifer"

def RouteDebugOutputs : String := "/debug/outputs"

def RouteDebugOutputsUnspent : String := "/debug/outputs/unspent"

def RouteDebugOutputsSpent : String := "/debug/outputs/spent"

def RouteDebugMilestoneDiffs : String := "/debug/ms-diff/:" ++ ParameterMilestoneIndex

def RouteDebugRequests : String := "/debug/requests"

def RouteDebugMessageCone : String := "/debug/message-cones/:" ++ ParameterMessageID

/-- The routes `configure` of plugin.go:188-426 registers on the
`/api/v1` group, in registration order: the tips route only when the URTS
plugin is not skipped (plugin.go:204-213), the spammer route only when the
spammer plugin is not skipped (plugin.go:215-224). -/
def configureRoutes (urtsSkipped spammerSkipped : Bool) : List Route :=
  [⟨"GET", RouteInfo⟩]
    ++ (if urtsSkipped then [] else [⟨"GET", RouteTips⟩])
    ++ (if spammerSkipped then [] else [⟨"GET", RouteSpammer⟩])
    ++ [⟨"GET", RouteMessageMetadata⟩, ⟨"GET", RouteMessageData⟩,
        ⟨"GET", RouteMessageBytes⟩, ⟨"GET", RouteMessageChildren⟩,
        ⟨"GET", RouteMessages⟩, ⟨"POST", RouteMessages⟩,
        ⟨"GET", RouteMilestone⟩, ⟨"GET", RouteOutput⟩,
        ⟨"GET", RouteAddressBalance⟩, ⟨"GET", RouteAddressOutputs⟩,
        ⟨"GET", RoutePeer⟩, ⟨"DELETE", RoutePeer⟩,
        ⟨"GET", RoutePeers⟩, ⟨"POST", RoutePeers⟩,
        ⟨"GET", RouteControlDatabasePrune⟩, ⟨"GET", RouteControlSnapshotCreate⟩,
        ⟨"GET", RouteDebugSolidifer⟩, ⟨"GET", RouteDebugOutputs⟩,
        ⟨"GET", RouteDebugOutputsUnspent⟩, ⟨"GET", RouteDebugOutputsSpent⟩,
        ⟨"GET", RouteDebugMilestoneDiffs⟩, ⟨"GET", RouteDebugRequests⟩,
        ⟨"GET", RouteDebugMessageCone⟩]

/-- A syntactically valid sample tail hash: exactly 81 trytes. -/
def sampleTail : String := String.mk (List.replicate 81 'A')

/-- A syntactically valid sample trunk hash. -/
def sampleTrunk : String := String.mk (List.replicate 81 'B')

/-- A syntactically valid sample branch hash. -/
def sampleBranch : String := String.mk (List.replicate 81 'C')

/-- A malformed hash: valid trytes but not 81 of them. -/
def badHash : String := "ABC"

/-- Metadata of a solid, unconfirmed, non-conflicting tail. -/
def okMeta : TxMetadata := ⟨true, true, false, false⟩

/-- A sample environment in which `sampleTail` is a solid, unconfirmed,
non-conflicting tail with `LSMI = 100`, `YTRSI = 95`, `OTRSI = 90` and
thresholds 15 / 8 / 2. -/
def baseEnv : TipInfoEnv :=
  { urtsSkipped := false
    nodeSyncedWithThreshold := true
    internalErrorText := "internal error"
    hashFromHashTrytes := fun s => s
    hashTrytes := fun s => s
    txMeta := fun h => if h = sampleTail then some okMeta else none
    lsmi := 100
    rootSnapshotIndexes := fun _ _ => (95, 90)
    bundle := fun h => if h = sampleTail then some ⟨sampleTrunk, sampleBranch⟩ else none
    solidEntryPointsContain := fun _ => false
    entryPointIndex := 97
    cfgBelowMaxDepth := 15
    cfgMaxDeltaTxYoungestRootSnapshotIndexToLSMI := 8
    cfgMaxDeltaTxApproveesOldestRootSnapshotIndexToLSMI := 2 }

/-- `baseEnv` with `sampleTail` marked both confirmed and conflicting. -/
def envC1 : TipInfoEnv :=
  { baseEnv with
    txMeta := fun h => if h = sampleTail then some ⟨true, true, true, true⟩ else none }

/-- `baseEnv` with `OTRSI = 80`: the below-max-depth delta is 20 > 15. -/
def envC2 : TipInfoEnv :=
  { baseEnv with rootSnapshotIndexes := fun _ _ => (95, 80) }

/-- `baseEnv` with `(YTRSI, OTRSI) = (90, 85)`: the below-max-depth delta is
15 (not over 15) while the YTRSI delta is 10 > 8. -/
def envC3 : TipInfoEnv :=
  { baseEnv with rootSnapshotIndexes := fun _ _ => (90, 85) }

/-- `baseEnv` in which `sampleTrunk` is a solid entry point (entry point
index 97, delta 3 > 2) and `sampleBranch` a known transaction with
`OTRSI = 99` (delta 1). -/
def envC4 : TipInfoEnv :=
  { baseEnv with
    txMeta := fun h =>
      if h = sampleTail then some okMeta
      else if h = sampleBranch then some okMeta
      else none
    rootSnapshotIndexes := fun h _ => if h = sampleBranch then (99, 99) else (95, 90)
    solidEntryPointsContain := fun h => h == sampleTrunk }

/-- `baseEnv` with the node reported as not synced within the threshold. -/
def envNotSynced : TipInfoEnv := { baseEnv with nodeSyncedWithThreshold := false }

/-- `baseEnv` with the URTS plugin skipped. -/
def envSkipped : TipInfoEnv := { baseEnv with urtsSkipped := true }

/-- The messages of the selection errors (`err.Error()` in Go). -/
def selErrText : SelectError → String
  | SelectError.nodeNotSynced => "node is not synced"
  | SelectError.noTipsAvailable => "no tips available"
  | SelectError.other tag => tag

/-- A sample selection environment in which tip selection succeeds with
`[sampleTrunk, sampleBranch]`. -/
def envSelOk : TipSelEnv :=
  { urtsSkipped := false
    internalErrorText := "internal error"
    selectNonLazyTips := Except.ok [sampleTrunk, sampleBranch]
    errText := selErrText
    trytes := fun s => s }

/-- `envSelOk` with tip selection failing with `ErrNoTipsAvailable`. -/
def envNoTips : TipSelEnv :=
  { envSelOk with selectNonLazyTips := Except.error SelectError.noTipsAvailable }

/-- `envSelOk` with tip selection failing with `ErrNodeNotSynced`. -/
def envSelNotSynced : TipSelEnv :=
  { envSelOk with selectNonLazyTips := Except.error SelectError.nodeNotSynced }

/-- `envSelOk` with the URTS plugin skipped. -/
def envSelSkipped : TipSelEnv := { envSelOk with urtsSkipped := true }

theorem toIndex_of_lt (n : Nat) (h : n < U32) : toIndex n = n := Nat.mod_eq_of_lt h

theorem indexSub_of_le (a b : Nat) (hba : b ≤ a) (ha : a < U32) : indexSub a b = a - b := by
  have hb : b < U32 := Nat.lt_of_le_of_lt hba ha
  unfold indexSub
  rw [Nat.mod_eq_of_lt ha, Nat.mod_eq_of_lt hb]
  have h1 : a + (U32 - b) = U32 + (a - b) := by omega
  rw [h1, Nat.add_mod_left, Nat.mod_eq_of_lt (by omega)]

theorem checkApprovees_eq (env : TipInfoEnv)
    (hlsmi : env.lsmi < U32)
    (hcfg : env.cfgMaxDeltaTxApproveesOldestRootSnapshotIndexToLSMI < U32)
    (l : List String)
    (hres : ∀ h ∈ l, (approveeORTSI env h).isSome = true)
    (hle : ∀ h ∈ l, approveeORTSIVal env h ≤ env.lsmi) :
    checkApprovees env l =
      if ∃ h ∈ l, env.cfgMaxDeltaTxApproveesOldestRootSnapshotIndexToLSMI <
          env.lsmi - approveeORTSIVal env h then
        ApiResult.ok ⟨false, false, true, false⟩
      else
        ApiResult.ok ⟨false, false, false, false⟩ := by
  induction l with
  | nil => simp [checkApprovees]
  | cons h rest ih =>
    obtain ⟨o, ho⟩ := Option.isSome_iff_exists.mp (hres h (List.mem_cons_self h rest))
    have hov : approveeORTSIVal env h = o := by simp [approveeORTSIVal, ho]
    have holsmi : o ≤ env.lsmi := hov ▸ hle h (List.mem_cons_self h rest)
    have hsub : indexSub env.lsmi o = env.lsmi - o :=
      indexSub_of_le env.lsmi o holsmi hlsmi
    have ihr := ih (fun x hx => hres x (List.mem_cons_of_mem h hx))
      (fun x hx => hle x (List.mem_cons_of_mem h hx))
    by_cases hc : env.cfgMaxDeltaTxApproveesOldestRootSnapshotIndexToLSMI < env.lsmi - o
    · simp [checkApprovees, ho, hsub, toIndex_of_lt _ hcfg, hc, hov]
    · simp [checkApprovees, ho, hsub, toIndex_of_lt _ hcfg, hc, hov, ihr]

/-- C1: a solid tail that is marked both confirmed and conflicting gets the
reply with confirmed masked to false, conflicting true, and neither promote
nor reattach; no threshold is consulted (the environment's thresholds and
indexes are arbitrary). -/
theorem getTipInfo_confirmed_and_conflicting (env : TipInfoEnv) (tail : String)
    (meta : TxMetadata)
    (hskip : env.urtsSkipped = false)
    (hsync : env.nodeSyncedWithThreshold = true)
    (hhash : isTransactionHash tail = true)
    (hmeta : env.txMeta (env.hashFromHashTrytes tail) = some meta)
    (htail : meta.isTail = true)
    (hsolid : meta.isSolid = true)
    (hconf : meta.isConfirmed = true)
    (hconfl : meta.isConflicting = true) :
    getTipInfo env none tail = ApiResult.ok ⟨false, true, false, false⟩ := by
  simp [getTipInfo, hskip, hsync, hhash, hmeta, htail, hsolid, hconf, hconfl]

/-- C2: a solid, non-confirmed, non-conflicting tail whose `LSMI - OTRSI`
delta exceeds the below-max-depth threshold gets `shouldReattach = true`;
the YTRSI delta and the approvees are arbitrary, so the reply stands even
when the later thresholds are also breached. -/
theorem getTipInfo_bmd_reattach (env : TipInfoEnv) (tail : String)
    (meta : TxMetadata) (ytrsi otrsi : Nat)
    (hskip : env.urtsSkipped = false)
    (hsync : env.nodeSyncedWithThreshold = true)
    (hhash : isTransactionHash tail = true)
    (hmeta : env.txMeta (env.hashFromHashTrytes tail) = some meta)
    (htail : meta.isTail = true)
    (hsolid : meta.isSolid = true)
    (hnconf : meta.isConfirmed = false)
    (hnconfl : meta.isConflicting = false)
    (hidx : env.rootSnapshotIndexes (env.hashFromHashTrytes tail) env.lsmi = (ytrsi, otrsi))
    (hlsmi : env.lsmi < U32)
    (hcfgB : env.cfgBelowMaxDepth < U32)
    (hole : otrsi ≤ env.lsmi)
    (hbmd : env.cfgBelowMaxDepth < env.lsmi - otrsi) :
    getTipInfo env none tail = ApiResult.ok ⟨false, false, false, true⟩ := by
  have hsubO := indexSub_of_le env.lsmi otrsi hole hlsmi
  simp [getTipInfo, hskip, hsync, hhash, hmeta, htail, hsolid, hnconf, hnconfl, hidx,
    hsubO, toIndex_of_lt _ hcfgB, hbmd]

/-- C3: a solid, non-confirmed, non-conflicting tail within below-max-depth
whose `LSMI - YTRSI` delta exceeds
`CfgTipSelMaxDeltaTxYoungestRootSnapshotIndexToLSMI` gets
`shouldPromote = true` without the bundle or the approvees being consulted
(they are arbitrary in the environment). -/
theorem getTipInfo_ytrsi_promote (env : TipInfoEnv) (tail : String)
    (meta : TxMetadata) (ytrsi otrsi : Nat)
    (hskip : env.urtsSkipped = false)
    (hsync : env.nodeSyncedWithThreshold = true)
    (hhash : isTransactionHash tail = true)
    (hmeta : env.txMeta (env.hashFromHashTrytes tail) = some meta)
    (htail : meta.isTail = true)
    (hsolid : meta.isSolid = true)
    (hnconf : meta.isConfirmed = false)
    (hnconfl : meta.isConflicting = false)
    (hidx : env.rootSnapshotIndexes (env.hashFromHashTrytes tail) env.lsmi = (ytrsi, otrsi))
    (hlsmi : env.lsmi < U32)
    (hcfgB : env.cfgBelowMaxDepth < U32)
    (hcfgY : env.cfgMaxDeltaTxYoungestRootSnapshotIndexToLSMI < U32)
    (hole : otrsi ≤ env.lsmi) (hyle : ytrsi ≤ env.lsmi)
    (hbmdOk : env.lsmi - otrsi ≤ env.cfgBelowMaxDepth)
    (hytrsi : env.cfgMaxDeltaTxYoungestRootSnapshotIndexToLSMI < env.lsmi - ytrsi) :
    getTipInfo env none tail = ApiResult.ok ⟨false, false, true, false⟩ := by
  have hsubO := indexSub_of_le env.lsmi otrsi hole hlsmi
  have hsubY := indexSub_of_le env.lsmi ytrsi hyle hlsmi
  simp [getTipInfo, hskip, hsync, hhash, hmeta, htail, hsolid, hnconf, hnconfl, hidx,
    hsubO, hsubY, toIndex_of_lt _ hcfgB, toIndex_of_lt _ hcfgY,
    Nat.not_lt.mpr hbmdOk, hytrsi]

/-- C4: a solid, non-confirmed, non-conflicting tail passing the
below-max-depth and YTRSI tests gets `shouldPromote = true` exactly when
some approvee (trunk or branch of its bundle, a solid-entry-point approvee
contributing the snapshot's entry point index as OTRSI) has an
`LSMI - OTRSI` delta over
`CfgTipSelMaxDeltaTxApproveesOldestRootSnapshotIndexToLSMI`; otherwise all
four reply flags are false. -/
theorem getTipInfo_approvee_scan (env : TipInfoEnv) (tail : String)
    (meta : TxMetadata) (ytrsi otrsi : Nat) (b : BundleApprovees)
    (hskip : env.urtsSkipped = false)
    (hsync : env.nodeSyncedWithThreshold = true)
    (hhash : isTransactionHash tail = true)
    (hmeta : env.txMeta (env.hashFromHashTrytes tail) = some meta)
    (htail : meta.isTail = true)
    (hsolid : meta.isSolid = true)
    (hnconf : meta.isConfirmed = false)
    (hnconfl : meta.isConflicting = false)
    (hidx : env.rootSnapshotIndexes (env.hashFromHashTrytes tail) env.lsmi = (ytrsi, otrsi))
    (hlsmi : env.lsmi < U32)
    (hcfgB : env.cfgBelowMaxDepth < U32)
    (hcfgY : env.cfgMaxDeltaTxYoungestRootSnapshotIndexToLSMI < U32)
    (hcfgA : env.cfgMaxDeltaTxApproveesOldestRootSnapshotIndexToLSMI < U32)
    (hole : otrsi ≤ env.lsmi) (hyle : ytrsi ≤ env.lsmi)
    (hbmdOk : env.lsmi - otrsi ≤ env.cfgBelowMaxDepth)
    (hytrsiOk : env.lsmi - ytrsi ≤ env.cfgMaxDeltaTxYoungestRootSnapshotIndexToLSMI)
    (hbund : env.bundle (env.hashFromHashTrytes tail) = some b)
    (hres : ∀ h ∈ approveeHashes b, (approveeORTSI env h).isSome = true)
    (hle : ∀ h ∈ approveeHashes b, approveeORTSIVal env h ≤ env.lsmi) :
    getTipInfo env none tail =
      if ∃ h ∈ approveeHashes b,
          env.cfgMaxDeltaTxApproveesOldestRootSnapshotIndexToLSMI <
            env.lsmi - approveeORTSIVal env h then
        ApiResult.ok ⟨false, false, true, false⟩
      else
        ApiResult.ok ⟨false, false, false, false⟩ := by
  have hsubO := indexSub_of_le env.lsmi otrsi hole hlsmi
  have hsubY := indexSub_of_le env.lsmi ytrsi hyle hlsmi
  rw [← checkApprovees_eq env hlsmi hcfgA (approveeHashes b) hres hle]
  simp [getTipInfo, hskip, hsync, hhash, hmeta, htail, hsolid, hnconf, hnconfl, hidx,
    hsubO, hsubY, toIndex_of_lt _ hcfgB, toIndex_of_lt _ hcfgY,
    Nat.not_lt.mpr hbmdOk, Nat.not_lt.mpr hytrsiOk, hbund]

/-- C5: when `getTransactionsToApprove` is given a non-empty reference and
tip selection succeeded, a syntactically valid reference yields the reply
`(tips[0], reference)` with no further check on the reference, and a
malformed reference yields a 400 `invalid reference hash supplied`. -/
theorem getTransactionsToApprove_reference_override (env : TipSelEnv)
    (reference : String) (tips : List String)
    (hskip : env.urtsSkipped = false)
    (hsel : env.selectNonLazyTips = Except.ok tips)
    (hlen : 0 < reference.length) :
    getTransactionsToApprove env none reference =
      if isTransactionHash reference then
        ApiResult.ok ⟨env.trytes (tips.getD 0 ""), reference⟩
      else
        ApiResult.fail 400 "invalid reference hash supplied" := by
  cases hc : isTransactionHash reference <;>
    simp [getTransactionsToApprove, hskip, hsel, hlen, hc]

/-- C6: when tip selection fails, `ErrNodeNotSynced` and
`ErrNoTipsAvailable` are surfaced with HTTP 503 and the error's own message,
and every other selection error is surfaced with HTTP 500 as an internal
error. -/
theorem getTransactionsToApprove_select_error (env : TipSelEnv) (e : SelectError)
    (reference : String)
    (hskip : env.urtsSkipped = false)
    (hsel : env.selectNonLazyTips = Except.error e) :
    getTransactionsToApprove env none reference =
      if e = SelectError.nodeNotSynced ∨ e = SelectError.noTipsAvailable then
        ApiResult.fail 503 (env.errText e)
      else
        ApiResult.fail 500 (env.internalErrorText ++ ": " ++ env.errText e) := by
  simp [getTransactionsToApprove, hskip, hsel]

/-- C7: the client faults of `getTipInfo` are surfaced with HTTP 400 and a
diagnostic, checked in order invalid hash, then unknown transaction, then
not a tail, then not solid: each clause below is conditioned only on the
earlier checks passing, so a request failing an earlier check never reaches
a later one, and none of them depends on the classification state. -/
theorem getTipInfo_client_fault_order (env : TipInfoEnv) (tail : String)
    (hskip : env.urtsSkipped = false)
    (hsync : env.nodeSyncedWithThreshold = true) :
    (isTransactionHash tail = false →
      getTipInfo env none tail = ApiResult.fail 400 "invalid tail hash supplied") ∧
    (isTransactionHash tail = true →
      env.txMeta (env.hashFromHashTrytes tail) = none →
      getTipInfo env none tail = ApiResult.fail 400 "unknown tail transaction") ∧
    (∀ meta : TxMetadata, isTransactionHash tail = true →
      env.txMeta (env.hashFromHashTrytes tail) = some meta →
      meta.isTail = false →
      getTipInfo env none tail = ApiResult.fail 400 "transaction is not a tail") ∧
    (∀ meta : TxMetadata, isTransactionHash tail = true →
      env.txMeta (env.hashFromHashTrytes tail) = some meta →
      meta.isTail = true → meta.isSolid = false →
      getTipInfo env none tail = ApiResult.fail 400 "transaction is not solid") := by
  refine ⟨fun h1 => ?_, fun h1 h2 => ?_, fun meta h1 h2 h3 => ?_,
    fun meta h1 h2 h3 h4 => ?_⟩
  · simp [getTipInfo, hskip, hsync, h1]
  · simp [getTipInfo, hskip, hsync, h1, h2]
  · simp [getTipInfo, hskip, hsync, h1, h2, h3]
  · simp [getTipInfo, hskip, hsync, h1, h2, h3, h4]

/-- C8 (amended): `ErrNodeNotSynced` from tip selection is surfaced by
`getTransactionsToApprove` with HTTP 503 and the error's message, but
`getTipInfo` answers a node that is not synced within the threshold with
HTTP 400 (not 503) and the `node is not synced` diagnostic. -/
theorem nodeNotSynced_statuses (envSel : TipSelEnv) (env : TipInfoEnv)
    (reference tail : String) (decodeErr : Option String)
    (h1 : envSel.urtsSkipped = false)
    (h2 : envSel.selectNonLazyTips = Except.error SelectError.nodeNotSynced)
    (h3 : env.urtsSkipped = false)
    (h4 : env.nodeSyncedWithThreshold = false) :
    getTransactionsToApprove envSel none reference =
        ApiResult.fail 503 (envSel.errText SelectError.nodeNotSynced) ∧
      getTipInfo env decodeErr tail = ApiResult.fail 400 "node is not synced" := by
  constructor
  · simp [getTransactionsToApprove, h1, h2]
  · simp [getTipInfo, h3, h4]

/-- C8 counterexample: with the node not synced, `getTipInfo` replies with
status 400, not with status 503 as the claim states. -/
theorem getTipInfo_not_synced_cex :
    getTipInfo envNotSynced none sampleTail =
        ApiResult.fail 400 "node is not synced" ∧
      getTipInfo envNotSynced none sampleTail ≠
        ApiResult.fail 503 "node is not synced" := by
  decide

/-- C9 (amended): with the URTS plugin skipped, `getTipInfo` and
`getTransactionsToApprove` reply 503 `tipselection plugin disabled in this
node` before any other work; the restapi v1 `configure` registers the
`GET /tips` route exactly when the plugin is not skipped, so a skipped
plugin leaves no tips handler at all. -/
theorem urts_disabled_endpoints (env : TipInfoEnv) (envSel : TipSelEnv)
    (d1 d2 : Option String) (tail reference : String) (us ss : Bool)
    (h1 : env.urtsSkipped = true)
    (h2 : envSel.urtsSkipped = true) :
    getTipInfo env d1 tail =
        ApiResult.fail 503 "tipselection plugin disabled in this node" ∧
      getTransactionsToApprove envSel d2 reference =
        ApiResult.fail 503 "tipselection plugin disabled in this node" ∧
      (Route.mk "GET" RouteTips ∈ configureRoutes us ss ↔ us = false) := by
  refine ⟨by simp [getTipInfo, h1], by simp [getTransactionsToApprove, h2], ?_⟩
  cases us <;> cases ss <;> decide

/-- C9 counterexample: with the URTS plugin skipped, `configure` does not
register the `GET /tips` route at all (it is registered exactly when the
plugin is enabled), so no tips handler exists to answer 503. -/
theorem tips_route_skipped_cex :
    Route.mk "GET" RouteTips ∉ configureRoutes true false ∧
      Route.mk "GET" RouteTips ∈ configureRoutes false false := by
  decide

/-- C10: in `getTransactionsToApprove`, tip selection runs before the
reference is validated: with a malformed non-empty reference and a failing
selection, the reply equals the one for no reference at all, is the
selection error (503 for the sentinel errors, 500 otherwise), and is never
the 400 invalid-reference fault. -/
theorem select_error_before_reference (env : TipSelEnv) (e : SelectError)
    (reference : String)
    (hskip : env.urtsSkipped = false)
    (hsel : env.selectNonLazyTips = Except.error e)
    (hlen : 0 < reference.length)
    (hbad : isTransactionHash reference = false) :
    getTransactionsToApprove env none reference =
        getTransactionsToApprove env none "" ∧
      (getTransactionsToApprove env none reference =
        if e = SelectError.nodeNotSynced ∨ e = SelectError.noTipsAvailable then
          ApiResult.fail 503 (env.errText e)
        else
          ApiResult.fail 500 (env.internalErrorText ++ ": " ++ env.errText e)) ∧
      ∀ s, getTransactionsToApprove env none reference ≠ ApiResult.fail 400 s := by
  refine ⟨by simp [getTransactionsToApprove, hskip, hsel],
    by simp [getTransactionsToApprove, hskip, hsel], fun s => ?_⟩
  by_cases hc : e = SelectError.nodeNotSynced ∨ e = SelectError.noTipsAvailable
  · simp [getTransactionsToApprove, hskip, hsel, hc]
  · simp [getTransactionsToApprove, hskip, hsel, hc]

/-- C1 witness at `envC1`. -/
theorem getTipInfo_confirmed_and_conflicting_w :
    getTipInfo envC1 none sampleTail = ApiResult.ok ⟨false, true, false, false⟩ :=
  getTipInfo_confirmed_and_conflicting envC1 sampleTail ⟨true, true, true, true⟩
    rfl rfl (by decide) (by decide) rfl rfl rfl rfl

/-- C2 witness at `envC2`: delta 20 over threshold 15. -/
theorem getTipInfo_bmd_reattach_w :
    getTipInfo envC2 none sampleTail = ApiResult.ok ⟨false, false, false, true⟩ :=
  getTipInfo_bmd_reattach envC2 sampleTail okMeta 95 80 rfl rfl (by decide) (by decide)
    rfl rfl rfl rfl rfl (by decide) (by decide) (by decide) (by decide)

/-- C3 witness at `envC3`: YTRSI delta 10 over threshold 8, BMD delta 15 not
over 15. -/
theorem getTipInfo_ytrsi_promote_w :
    getTipInfo envC3 none sampleTail = ApiResult.ok ⟨false, false, true, false⟩ :=
  getTipInfo_ytrsi_promote envC3 sampleTail okMeta 90 85 rfl rfl (by decide) (by decide)
    rfl rfl rfl rfl rfl (by decide) (by decide) (by decide) (by decide) (by decide)
    (by decide) (by decide)

/-- C4 witness at `envC4`: the solid-entry-point trunk contributes delta 3
over threshold 2, so the tip is promoted. -/
theorem getTipInfo_approvee_scan_w :
    getTipInfo envC4 none sampleTail = ApiResult.ok ⟨false, false, true, false⟩ :=
  (getTipInfo_approvee_scan envC4 sampleTail okMeta 95 90 ⟨sampleTrunk, sampleBranch⟩
    rfl rfl (by decide) (by decide) rfl rfl rfl rfl (by decide) (by decide) (by decide)
    (by decide) (by decide) (by decide) (by decide) (by decide) (by decide) (by decide)
    (by decide) (by decide)).trans (by decide)

/-- C5 witness at `envSelOk` with the valid reference `sampleBranch`. -/
theorem getTransactionsToApprove_reference_override_w :
    getTransactionsToApprove envSelOk none sampleBranch =
      ApiResult.ok ⟨sampleTrunk, sampleBranch⟩ :=
  (getTransactionsToApprove_reference_override envSelOk sampleBranch
    [sampleTrunk, sampleBranch] rfl rfl (by decide)).trans (by decide)

/-- C6 witness at `envNoTips`. -/
theorem getTransactionsToApprove_select_error_w :
    getTransactionsToApprove envNoTips none "" =
      ApiResult.fail 503 "no tips available" :=
  (getTransactionsToApprove_select_error envNoTips SelectError.noTipsAvailable ""
    rfl rfl).trans (by decide)

/-- C7 witness at `baseEnv` with the malformed hash `badHash`. -/
theorem getTipInfo_client_fault_order_w :
    getTipInfo baseEnv none badHash = ApiResult.fail 400 "invalid tail hash supplied" :=
  (getTipInfo_client_fault_order baseEnv badHash rfl rfl).1 (by decide)

/-- C8 witness at `envSelNotSynced` and `envNotSynced`. -/
theorem nodeNotSynced_statuses_w :
    getTransactionsToApprove envSelNotSynced none "" =
        ApiResult.fail 503 (envSelNotSynced.errText SelectError.nodeNotSynced) ∧
      getTipInfo envNotSynced none sampleTail =
        ApiResult.fail 400 "node is not synced" :=
  nodeNotSynced_statuses envSelNotSynced envNotSynced "" sampleTail none rfl rfl rfl rfl

/-- C9 witness at `envSkipped` and `envSelSkipped`. -/
theorem urts_disabled_endpoints_w :
    getTipInfo envSkipped none sampleTail =
        ApiResult.fail 503 "tipselection plugin disabled in this node" ∧
      getTransactionsToApprove envSelSkipped none "" =
        ApiResult.fail 503 "tipselection plugin disabled in this node" ∧
      (Route.mk "GET" RouteTips ∈ configureRoutes true false ↔ true = false) :=
  urts_disabled_endpoints envSkipped envSelSkipped none none sampleTail "" true false rfl rfl

/-- C10 witness at `envNoTips` with the malformed reference `badHash`. -/
theorem select_error_before_reference_w :
    getTransactionsToApprove envNoTips none badHash =
      getTransactionsToApprove envNoTips none "" :=
  (select_error_before_reference envNoTips SelectError.noTipsAvailable badHash
    rfl rfl (by decide) (by decide)).1

end HornetTips
